import Mathlib

set_option linter.unusedVariables false

/-!
Verification of the concurrency core of the Jam-Digital-ESP32-S3 sketch
(src/sketch.ino): shared time-of-day state, alarm/strike decision logic in
timeTask, the encoder ISR minute adjustment, the buzzer tone decision and
wake handling, and the stop-button clear.  Mutex acquisitions that can time
out are modelled by an explicit Bool argument (true = acquired within the
timeout); giving the binary semaphore alarmSem is modelled as a Bool result.
All C ints are modelled as Int.  C's remainder truncates toward zero while
Lean's % on Int is Euclidean; the two agree on the nonnegative operands that
occur here, and theorems carry the nonnegativity hypotheses that make the
embedding faithful.
-/

/-- Time-of-day shared state: hourNow, minuteNow, secondNow
(src/sketch.ino lines 33-35). -/
structure TimeOfDay where
  hour : Int
  minute : Int
  second : Int
  deriving DecidableEq, Repr

/-- A time-of-day is in range: hour 0..23, minute 0..59, second 0..59. -/
def TimeOfDay.valid (t : TimeOfDay) : Prop :=
  0 ≤ t.hour ∧ t.hour < 24 ∧ 0 ≤ t.minute ∧ t.minute < 60 ∧ 0 ≤ t.second ∧ t.second < 60

instance (t : TimeOfDay) : Decidable t.valid := by
  unfold TimeOfDay.valid
  infer_instance

/-- Alarm shared state protected by dataMutex: alarmRinging (line 45) and
strikeRemaining (line 42). -/
structure AlarmState where
  alarmRinging : Bool
  strikeRemaining : Int
  deriving DecidableEq, Repr

/-- Alarm configuration constant alarmHour (src/sketch.ino line 38). -/
def alarmHour : Int := 5

/-- Alarm configuration constant alarmMinute (src/sketch.ino line 39). -/
def alarmMinute : Int := 30

/-- Potentiometer mute threshold (src/sketch.ino line 59). -/
def POT_MIN_THRESHOLD : Int := 50

/-- Lowest audible buzzer frequency (src/sketch.ino line 60). -/
def BUZZER_FREQ_MIN : Int := 800

/-- Highest buzzer frequency (src/sketch.ino line 61). -/
def BUZZER_FREQ_MAX : Int := 3000

/-- Digital line level LOW. -/
def LOW : Int := 0

/-- Digital line level HIGH. -/
def HIGH : Int := 1

/-- One-second advance of the shared time performed by timeTask
(src/sketch.ino lines 159-172): secondNow is incremented, carrying into
minuteNow at 60 and into hourNow at 60 minutes, with the hour wrapping
modulo 24. -/
def tickTime (t : TimeOfDay) : TimeOfDay :=
  if 60 ≤ t.second + 1 then
    (if 60 ≤ t.minute + 1 then ⟨(t.hour + 1) % 24, 0, 0⟩
     else ⟨t.hour, t.minute + 1, 0⟩)
  else ⟨t.hour, t.minute, t.second + 1⟩

/-- Total seconds since midnight of a time-of-day. -/
def toSecs (t : TimeOfDay) : Int :=
  t.hour * 3600 + t.minute * 60 + t.second

/-- Alarm check of timeTask (src/sketch.ino lines 174-183), with the alarm
configuration (aH, aM) as parameters (the sketch fixes them to
alarmHour = 5, alarmMinute = 30).  On an exact match of the copied time
(h, m, s) against (aH, aM, 0) the task tries dataMutex with a 10-tick
timeout (modelled by mutexOk); on success it sets alarmRinging.  The give
of alarmSem (line 182) sits outside the mutex-take block, so the Bool
result (whether alarmSem was given) is true on every match, even when the
mutex acquisition timed out. -/
def alarmCheck (aH aM h m s : Int) (st : AlarmState) (mutexOk : Bool) :
    AlarmState × Bool :=
  if h = aH ∧ m = aM ∧ s = 0 then
    (if mutexOk then { st with alarmRinging := true } else st, true)
  else (st, false)

/-- Hourly strike check of timeTask (src/sketch.ino lines 186-200).  At
m == 0 and s == 0 the task tries dataMutex (10-tick timeout, modelled by
mutexOk); under the mutex, if strikeRemaining == 0 and alarmRinging is
false, it re-reads hourNow under the fast time lock (passed here as
hourNow), computes hourNow % 12 with 0 mapped to 12, stores it in
strikeRemaining and gives alarmSem (the Bool result). -/
def strikeCheck (m s hourNow : Int) (st : AlarmState) (mutexOk : Bool) :
    AlarmState × Bool :=
  if m = 0 ∧ s = 0 then
    (if mutexOk then
      (if st.strikeRemaining = 0 ∧ st.alarmRinging = false then
        ({ st with strikeRemaining :=
            if hourNow % 12 = 0 then 12 else hourNow % 12 }, true)
       else (st, false))
     else (st, false))
  else (st, false)

/-- Post-increment check phase of one timeTask tick (src/sketch.ino lines
174-200): the alarm check runs first, then the strike check on the updated
alarm state.  Returns the final alarm state and the two alarmSem-given
flags (alarm check first, strike check second).  In this sequential model
the strike check's re-read of hourNow yields the same hour t.hour that the
tick copied out. -/
def checkPhase (aH aM : Int) (t : TimeOfDay) (st : AlarmState)
    (mOk1 mOk2 : Bool) : AlarmState × Bool × Bool :=
  (strikeCheck t.minute t.second t.hour (alarmCheck aH aM t.hour t.minute t.second st mOk1).1 mOk2).1 |>
    fun st2 => (st2,
      (alarmCheck aH aM t.hour t.minute t.second st mOk1).2,
      (strikeCheck t.minute t.second t.hour (alarmCheck aH aM t.hour t.minute t.second st mOk1).1 mOk2).2)

/-- Encoder ISR (src/sketch.ino lines 80-97).  Arguments are the two raw
line reads (clk, dt), the previously observed clk level lastClk, and the
current time.  On a rising edge of clk (clk differs from lastClk and is
HIGH): dt LOW steps the minute forward, wrapping 60 to 0 with the hour
incremented mod 24; otherwise the minute steps backward, wrapping below 0
to 59 with hourNow = (hourNow + 23) % 24; either way secondNow is reset
to 0.  Returns the updated time and the new lastClk (always set to clk). -/
def encoderISR (clk dt lastClk : Int) (t : TimeOfDay) : TimeOfDay × Int :=
  if clk ≠ lastClk ∧ clk = HIGH then
    ((if dt = LOW then
        (if 60 ≤ t.minute + 1 then ⟨(t.hour + 1) % 24, 0, 0⟩
         else ⟨t.hour, t.minute + 1, 0⟩)
      else
        (if t.minute - 1 < 0 then ⟨(t.hour + 23) % 24, 59, 0⟩
         else ⟨t.hour, t.minute - 1, 0⟩)), clk)
  else (t, clk)

/-- Arduino's map() helper as used at src/sketch.ino lines 230, 262, 307:
(x - inMin) * (outMax - outMin) / (inMax - inMin) + outMin, computed in C
long arithmetic whose division truncates toward zero (Int.tdiv). -/
def arduinoMap (x inMin inMax outMin outMax : Int) : Int :=
  Int.tdiv ((x - inMin) * (outMax - outMin)) (inMax - inMin) + outMin

/-- Tone decision: silence, or a tone at the given frequency. -/
inductive ToneAction where
  | mute : ToneAction
  | play : Int → ToneAction
  deriving DecidableEq, Repr

/-- Per-iteration tone decision of the strike loop of buzzerTask
(src/sketch.ino lines 225-232): a potentiometer reading strictly below
POT_MIN_THRESHOLD mutes the buzzer, otherwise the reading is mapped from
0..4095 into BUZZER_FREQ_MIN..BUZZER_FREQ_MAX. -/
def strikeToneAction (potVal : Int) : ToneAction :=
  if potVal < POT_MIN_THRESHOLD then ToneAction.mute
  else ToneAction.play (arduinoMap potVal 0 4095 BUZZER_FREQ_MIN BUZZER_FREQ_MAX)

/-- Per-iteration tone decision of the ringing loop of buzzerTask
(src/sketch.ino lines 257-264); textually the same computation as in the
strike loop. -/
def ringToneAction (potVal : Int) : ToneAction :=
  if potVal < POT_MIN_THRESHOLD then ToneAction.mute
  else ToneAction.play (arduinoMap potVal 0 4095 BUZZER_FREQ_MIN BUZZER_FREQ_MAX)

/-- Wake-up read of buzzerTask (src/sketch.ino lines 215-221): doAlarm and
strikes start as (false, 0); if dataMutex is acquired within the 50-tick
timeout they are loaded from the shared state, otherwise they keep their
defaults.  doAlarm is never used afterwards in the sketch. -/
def buzzerWakeRead (st : AlarmState) (mutexOk : Bool) : Bool × Int :=
  if mutexOk then (st.alarmRinging, st.strikeRemaining) else (false, 0)

/-- Shared-state effect of one strike-loop decrement attempt
(src/sketch.ino lines 239-246): if dataMutex is acquired, strikeRemaining
is decremented when positive; on timeout the shared state is untouched
(only the local counter is decremented). -/
def strikeDecrement (st : AlarmState) (mutexOk : Bool) : AlarmState :=
  if mutexOk then
    (if 0 < st.strikeRemaining then
      { st with strikeRemaining := st.strikeRemaining - 1 }
     else st)
  else st

/-- Strike loop of buzzerTask (src/sketch.ino lines 224-247) run to
completion in this sequential model, with fuel to make the recursion
structural.  strikes is the local counter; the k-th element of mOk is the
outcome of the k-th dataMutex acquisition at line 239.  On a successful
acquisition the shared counter is decremented (when positive) and copied
back into the local counter; on a timeout only the local counter is
decremented.  Returns the number of iterations run and the final shared
state. -/
def strikeLoopGo : Nat → Int → AlarmState → (Nat → Bool) → Nat × AlarmState
  | 0, _, st, _ => (0, st)
  | fuel + 1, strikes, st, mOk =>
    if 0 < strikes then
      (if mOk 0 then
        (fun r => (r.1 + 1, r.2))
          (strikeLoopGo fuel (strikeDecrement st true).strikeRemaining
            (strikeDecrement st true) (fun k => mOk (k + 1)))
       else
        (fun r => (r.1 + 1, r.2))
          (strikeLoopGo fuel (strikes - 1) st (fun k => mOk (k + 1))))
    else (0, st)

/-- Ringing-entry read of buzzerTask (src/sketch.ino lines 250-254):
stillRinging starts false and is loaded from alarmRinging if dataMutex is
acquired within its 50-tick timeout. -/
def ringingRead (st : AlarmState) (mutexOk : Bool) : Bool :=
  if mutexOk then st.alarmRinging else false

/-- One wake-handling pass of buzzerTask (src/sketch.ino lines 213-256) in
this sequential model: the wake-up read (mutex outcome mOk1), the strike
loop (per-iteration mutex outcomes decOk), then the ringing-entry read
(mutex outcome ringOk).  Returns (number of strike iterations run, the
stillRinging value that decides entry into the ringing loop, the shared
state after the strike loop). -/
def buzzerWakePass (st : AlarmState) (mOk1 : Bool) (decOk : Nat → Bool)
    (ringOk : Bool) (fuel : Nat) : Nat × Bool × AlarmState :=
  (fun r => (r.1, ringingRead r.2 ringOk, r.2))
    (strikeLoopGo fuel (buzzerWakeRead st mOk1).2 st decOk)

/-- Stop-button clear of buttonTask (src/sketch.ino lines 356-360): on an
accepted (debounced) press, if dataMutex is acquired within its 50-tick
timeout, alarmRinging and strikeRemaining are cleared in the same critical
section; on timeout the press is dropped and the state is untouched. -/
def stopPress (st : AlarmState) (mutexOk : Bool) : AlarmState :=
  if mutexOk then ⟨false, 0⟩ else st

/-- Range invariant for the strike counter. -/
def strikeInv (st : AlarmState) : Prop :=
  0 ≤ st.strikeRemaining ∧ st.strikeRemaining ≤ 12

instance (st : AlarmState) : Decidable (strikeInv st) := by
  unfold strikeInv
  infer_instance

/-- Synchronization and shared-data events of the strike-arming path. -/
inductive SyncEvent where
  | takeDataMutex : SyncEvent
  | enterTimeCritical : SyncEvent
  | readHour : SyncEvent
  | exitTimeCritical : SyncEvent
  | writeStrikeRemaining : SyncEvent
  | giveAlarmSem : SyncEvent
  | giveDataMutex : SyncEvent
  deriving DecidableEq, Repr

/-- Event order of the strike-arming path of timeTask (src/sketch.ino
lines 187-198) when the dataMutex take succeeds and the rearm guard holds,
exactly in source order: take dataMutex (187), enter the fast time
critical section (190), read hourNow (191), exit the critical section
(192), write strikeRemaining (194), give alarmSem (196), give dataMutex
(198). -/
def strikeArmTrace : List SyncEvent :=
  [SyncEvent.takeDataMutex, SyncEvent.enterTimeCritical, SyncEvent.readHour,
   SyncEvent.exitTimeCritical, SyncEvent.writeStrikeRemaining,
   SyncEvent.giveAlarmSem, SyncEvent.giveDataMutex]

/-- C1: when the hourly strike condition is armed (m = 0, s = 0,
strikeRemaining = 0, alarmRinging false, mutex acquired), the strike count
stored in strikeRemaining equals the current hour mod 12 with 0 mapped to
12, the strike is signalled, and hours 0 and 12 both produce 12 strikes. -/
theorem c1_strike_count (h : Int) (st : AlarmState) (hh : 0 ≤ h)
    (hsr : st.strikeRemaining = 0) (hrg : st.alarmRinging = false) :
    ((strikeCheck 0 0 h st true).1.strikeRemaining
        = if h % 12 = 0 then 12 else h % 12)
      ∧ (strikeCheck 0 0 h st true).2 = true
      ∧ (strikeCheck 0 0 0 st true).1.strikeRemaining = 12
      ∧ (strikeCheck 0 0 12 st true).1.strikeRemaining = 12 := by
  refine ⟨?_, ?_, ?_, ?_⟩ <;> simp [strikeCheck, hsr, hrg]

theorem c1_strike_count_witness :
    ((0 : Int) ≤ 9 ∧ (AlarmState.mk false 0).strikeRemaining = 0
        ∧ (AlarmState.mk false 0).alarmRinging = false)
      ∧ (((strikeCheck 0 0 9 ⟨false, 0⟩ true).1.strikeRemaining
            = if (9 : Int) % 12 = 0 then 12 else (9 : Int) % 12)
          ∧ (strikeCheck 0 0 9 ⟨false, 0⟩ true).2 = true
          ∧ (strikeCheck 0 0 0 ⟨false, 0⟩ true).1.strikeRemaining = 12
          ∧ (strikeCheck 0 0 12 ⟨false, 0⟩ true).1.strikeRemaining = 12) :=
  ⟨⟨by decide, rfl, rfl⟩, c1_strike_count 9 ⟨false, 0⟩ (by decide) rfl rfl⟩

/-- C2 counterexample: the claim demands silence for every reading at or
below the mute threshold 50, but the code mutes only for readings strictly
below POT_MIN_THRESHOLD, so the reading 50 produces a tone (of 826 Hz) in
both loops rather than silence. -/
theorem c2_counterexample :
    ¬ (strikeToneAction POT_MIN_THRESHOLD = ToneAction.mute
        ∧ ringToneAction POT_MIN_THRESHOLD = ToneAction.mute) := by
  decide

/-- Monotonicity of the concrete volume-to-frequency map. -/
theorem arduinoMap_mono (v w : Int) (hv0 : 0 ≤ v) (hvw : v ≤ w) :
    arduinoMap v 0 4095 BUZZER_FREQ_MIN BUZZER_FREQ_MAX
      ≤ arduinoMap w 0 4095 BUZZER_FREQ_MIN BUZZER_FREQ_MAX := by
  have hw0 : (0 : Int) ≤ w := le_trans hv0 hvw
  unfold arduinoMap BUZZER_FREQ_MIN BUZZER_FREQ_MAX
  simp only [sub_zero]
  rw [Int.tdiv_eq_ediv (by positivity) (by norm_num),
    Int.tdiv_eq_ediv (by positivity) (by norm_num)]
  have hmul : v * (3000 - 800) ≤ w * (3000 - 800) :=
    mul_le_mul_of_nonneg_right hvw (by norm_num)
  have := Int.ediv_le_ediv (a := v * (3000 - 800)) (b := w * (3000 - 800))
    (c := 4095) (by norm_num) hmul
  omega

/-- C2 (amended): for readings in 0..4095, a reading strictly below the
mute threshold 50 produces silence in both the striking and ringing loops;
the maximum reading 4095 produces exactly BUZZER_FREQ_MAX = 3000; and at or
above the threshold both loops play the mapped frequency, which is
monotonically non-decreasing in the reading. -/
theorem c2_volume_to_frequency (v w : Int) (hv0 : 0 ≤ v) (hvw : v ≤ w)
    (hw : w ≤ 4095) :
    (v < POT_MIN_THRESHOLD →
        strikeToneAction v = ToneAction.mute ∧ ringToneAction v = ToneAction.mute)
      ∧ strikeToneAction 4095 = ToneAction.play BUZZER_FREQ_MAX
      ∧ ringToneAction 4095 = ToneAction.play BUZZER_FREQ_MAX
      ∧ (POT_MIN_THRESHOLD ≤ v →
          strikeToneAction v
              = ToneAction.play (arduinoMap v 0 4095 BUZZER_FREQ_MIN BUZZER_FREQ_MAX)
            ∧ ringToneAction v
              = ToneAction.play (arduinoMap v 0 4095 BUZZER_FREQ_MIN BUZZER_FREQ_MAX)
            ∧ arduinoMap v 0 4095 BUZZER_FREQ_MIN BUZZER_FREQ_MAX
              ≤ arduinoMap w 0 4095 BUZZER_FREQ_MIN BUZZER_FREQ_MAX) := by
  refine ⟨?_, by decide, by decide, ?_⟩
  · intro hlt
    constructor <;> simp [strikeToneAction, ringToneAction, hlt]
  · intro hge
    have hnlt : ¬ v < POT_MIN_THRESHOLD := not_lt.mpr hge
    refine ⟨by simp [strikeToneAction, hnlt], by simp [ringToneAction, hnlt],
      arduinoMap_mono v w hv0 hvw⟩

theorem c2_volume_to_frequency_witness :
    ((0 : Int) ≤ 100 ∧ (100 : Int) ≤ 2000 ∧ (2000 : Int) ≤ 4095)
      ∧ (((100 : Int) < POT_MIN_THRESHOLD →
            strikeToneAction 100 = ToneAction.mute ∧ ringToneAction 100 = ToneAction.mute)
          ∧ strikeToneAction 4095 = ToneAction.play BUZZER_FREQ_MAX
          ∧ ringToneAction 4095 = ToneAction.play BUZZER_FREQ_MAX
          ∧ (POT_MIN_THRESHOLD ≤ (100 : Int) →
              strikeToneAction 100
                  = ToneAction.play (arduinoMap 100 0 4095 BUZZER_FREQ_MIN BUZZER_FREQ_MAX)
                ∧ ringToneAction 100
                  = ToneAction.play (arduinoMap 100 0 4095 BUZZER_FREQ_MIN BUZZER_FREQ_MAX)
                ∧ arduinoMap 100 0 4095 BUZZER_FREQ_MIN BUZZER_FREQ_MAX
                  ≤ arduinoMap 2000 0 4095 BUZZER_FREQ_MIN BUZZER_FREQ_MAX)) :=
  ⟨⟨by decide, by decide, by decide⟩,
    c2_volume_to_frequency 100 2000 (by decide) (by decide) (by decide)⟩

/-- C3 counterexample: at an alarm match with a timed-out dataMutex
acquisition, the claim says no alarmSem event is raised for that
occurrence; the code gives alarmSem outside the mutex-take block, so the
event is raised anyway. -/
theorem c3_counterexample :
    ¬ ((alarmCheck alarmHour alarmMinute alarmHour alarmMinute 0
          ⟨false, 0⟩ false).2 = false) := by
  decide

/-- C3 (amended): on a tick whose trigger condition holds but whose
dataMutex acquisition times out, the alarm state is left unchanged and no
strike count is armed; the strike path raises no alarmSem event, but the
alarm-match path still raises alarmSem despite the timeout, because the
semaphore give sits outside the mutex-take block. -/
theorem c3_lock_timeout (aH aM h m s : Int) (st : AlarmState)
    (hmatch : h = aH ∧ m = aM ∧ s = 0) :
    (alarmCheck aH aM h m s st false).1 = st
      ∧ (alarmCheck aH aM h m s st false).2 = true
      ∧ strikeCheck m s h st false = (st, false) := by
  obtain ⟨h1, h2, h3⟩ := hmatch
  subst h1
  subst h2
  subst h3
  refine ⟨?_, ?_, ?_⟩ <;> simp [alarmCheck, strikeCheck]

theorem c3_lock_timeout_witness :
    ((5 : Int) = 5 ∧ (30 : Int) = 30 ∧ (0 : Int) = 0)
      ∧ ((alarmCheck 5 30 5 30 0 ⟨false, 0⟩ false).1 = ⟨false, 0⟩
          ∧ (alarmCheck 5 30 5 30 0 ⟨false, 0⟩ false).2 = true
          ∧ strikeCheck 30 0 5 ⟨false, 0⟩ false = (⟨false, 0⟩, false)) :=
  ⟨⟨rfl, rfl, rfl⟩, c3_lock_timeout 5 30 5 30 0 ⟨false, 0⟩ ⟨rfl, rfl, rfl⟩⟩

/-- C4: when the alarm minute is 0 and the tick reaches (aH, 0, 0) with
both mutex acquisitions succeeding, the alarm check (which runs first)
sets alarmRinging, so the strike check's guard fails: strikeRemaining is
left unchanged and no strike alarmSem give happens. -/
theorem c4_alarm_suppresses_strikes (aH : Int) (st : AlarmState) :
    (checkPhase aH 0 ⟨aH, 0, 0⟩ st true true).1.alarmRinging = true
      ∧ (checkPhase aH 0 ⟨aH, 0, 0⟩ st true true).1.strikeRemaining
          = st.strikeRemaining
      ∧ (checkPhase aH 0 ⟨aH, 0, 0⟩ st true true).2.2 = false := by
  refine ⟨?_, ?_, ?_⟩ <;> simp [checkPhase, alarmCheck, strikeCheck]

/-- C5: an accepted stop press that acquires dataMutex clears the alarm
state to (ringing = false, strikes = 0) in one critical section, so every
state observable under the lock (the pre-stop state or the cleared state)
fails the predicate (strikeRemaining = 0 and alarmRinging true); a press
whose acquisition times out leaves the state unchanged. -/
theorem c5_stop_clears_atomically (st : AlarmState)
    (hN : 0 < st.strikeRemaining) (hr : st.alarmRinging = true) :
    stopPress st true = ⟨false, 0⟩
      ∧ (∀ b : Bool, ¬ ((stopPress st b).strikeRemaining = 0
            ∧ (stopPress st b).alarmRinging = true))
      ∧ stopPress st false = st := by
  refine ⟨rfl, ?_, rfl⟩
  intro b
  cases b
  · simp only [stopPress, Bool.false_eq_true, if_false]
    exact fun hc => absurd hc.1 (by omega)
  · simp [stopPress]

theorem c5_stop_clears_atomically_witness :
    (0 < (AlarmState.mk true 3).strikeRemaining
        ∧ (AlarmState.mk true 3).alarmRinging = true)
      ∧ ¬ ((stopPress ⟨true, 3⟩ false).strikeRemaining = 0
            ∧ (stopPress ⟨true, 3⟩ false).alarmRinging = true) :=
  ⟨⟨by decide, rfl⟩, (c5_stop_clears_atomically ⟨true, 3⟩ (by decide) rfl).2.1 false⟩

/-- One tick keeps the time in range and advances the seconds-since-
midnight count by one, modulo 86400. -/
theorem tickTime_step (t : TimeOfDay) (ht : t.valid) :
    (tickTime t).valid ∧ toSecs (tickTime t) = (toSecs t + 1) % 86400 := by
  obtain ⟨h, m, s⟩ := t
  unfold TimeOfDay.valid at ht
  dsimp only at ht
  unfold tickTime toSecs TimeOfDay.valid
  dsimp only
  split_ifs <;> dsimp only <;> omega

/-- Iterating the tick n times adds n seconds modulo 86400 and keeps the
time in range. -/
theorem tickTime_iterate (t : TimeOfDay) (ht : t.valid) (n : Nat) :
    (tickTime^[n] t).valid
      ∧ toSecs (tickTime^[n] t) = (toSecs t + n) % 86400 := by
  induction n with
  | zero =>
    refine ⟨ht, ?_⟩
    have ht' := ht
    unfold TimeOfDay.valid at ht'
    unfold toSecs at *
    simp only [Function.iterate_zero, id_eq, Nat.cast_zero, add_zero]
    omega
  | succ k ih =>
    obtain ⟨ihv, ihs⟩ := ih
    obtain ⟨hv, hs⟩ := tickTime_step _ ihv
    rw [Function.iterate_succ_apply'] at *
    refine ⟨hv, ?_⟩
    rw [hs, ihs]
    push_cast
    omega

/-- Seconds-since-midnight determines an in-range time uniquely. -/
theorem toSecs_inj (t1 t2 : TimeOfDay) (h1 : t1.valid) (h2 : t2.valid)
    (he : toSecs t1 = toSecs t2) : t1 = t2 := by
  cases t1
  cases t2
  unfold TimeOfDay.valid at h1 h2
  unfold toSecs at he
  simp only at h1 h2 he
  simp only [TimeOfDay.mk.injEq]
  omega

/-- C6: applying the one-second increment of timeTask 86400 times to any
in-range time-of-day returns exactly the original time. -/
theorem c6_full_day_round_trip (t : TimeOfDay) (ht : t.valid) :
    tickTime^[86400] t = t := by
  obtain ⟨hv, hs⟩ := tickTime_iterate t ht 86400
  apply toSecs_inj _ _ hv ht
  rw [hs]
  have ht' := ht
  unfold TimeOfDay.valid at ht'
  unfold toSecs at *
  push_cast
  omega

theorem c6_full_day_round_trip_witness :
    (TimeOfDay.mk 5 29 50).valid
      ∧ tickTime^[86400] ⟨5, 29, 50⟩ = ⟨5, 29, 50⟩ :=
  ⟨by decide, c6_full_day_round_trip ⟨5, 29, 50⟩ (by decide)⟩

/-- C7: on a rising clk edge, a forward (dt LOW) encoder step advances the
total minute count by one modulo 1440 and resets the second to 0 (so 23:59
wraps to 00:00), and a backward step retreats it by one modulo 1440 (adding
1439) and resets the second to 0 (so 00:00 wraps to 23:59). -/
theorem c7_minute_adjust (t : TimeOfDay) (lc : Int) (ht : t.valid)
    (hlc : lc ≠ HIGH) :
    ((encoderISR HIGH LOW lc t).1.hour * 60 + (encoderISR HIGH LOW lc t).1.minute
          = (t.hour * 60 + t.minute + 1) % 1440
        ∧ (encoderISR HIGH LOW lc t).1.second = 0)
      ∧ ((encoderISR HIGH HIGH lc t).1.hour * 60 + (encoderISR HIGH HIGH lc t).1.minute
          = (t.hour * 60 + t.minute + 1439) % 1440
        ∧ (encoderISR HIGH HIGH lc t).1.second = 0)
      ∧ (t.hour = 23 → t.minute = 59 → (encoderISR HIGH LOW lc t).1 = ⟨0, 0, 0⟩)
      ∧ (t.hour = 0 → t.minute = 0 → (encoderISR HIGH HIGH lc t).1 = ⟨23, 59, 0⟩) := by
  have hcond : HIGH ≠ lc ∧ HIGH = HIGH := ⟨fun he => hlc he.symm, rfl⟩
  have hfwd : (encoderISR HIGH LOW lc t).1
      = if 60 ≤ t.minute + 1 then ⟨(t.hour + 1) % 24, 0, 0⟩
        else ⟨t.hour, t.minute + 1, 0⟩ := by
    unfold encoderISR
    rw [if_pos hcond, if_pos rfl]
  have hbwd : (encoderISR HIGH HIGH lc t).1
      = if t.minute - 1 < 0 then ⟨(t.hour + 23) % 24, 59, 0⟩
        else ⟨t.hour, t.minute - 1, 0⟩ := by
    unfold encoderISR
    rw [if_pos hcond, if_neg (by norm_num [HIGH, LOW])]
  have ht' := ht
  unfold TimeOfDay.valid at ht'
  refine ⟨?_, ?_, ?_, ?_⟩
  · rw [hfwd]
    split_ifs <;> dsimp only <;> omega
  · rw [hbwd]
    split_ifs <;> dsimp only <;> omega
  · intro h23 h59
    rw [hfwd, if_pos (by omega), h23]
    simp only [TimeOfDay.mk.injEq]
    norm_num
  · intro h0 hm0
    rw [hbwd, if_pos (by omega), h0]
    simp only [TimeOfDay.mk.injEq]
    norm_num

theorem c7_minute_adjust_witness :
    ((TimeOfDay.mk 10 30 0).valid ∧ LOW ≠ HIGH)
      ∧ ((encoderISR HIGH LOW LOW ⟨10, 30, 0⟩).1.hour * 60
            + (encoderISR HIGH LOW LOW ⟨10, 30, 0⟩).1.minute
          = ((10 : Int) * 60 + 30 + 1) % 1440
        ∧ (encoderISR HIGH LOW LOW ⟨10, 30, 0⟩).1.second = 0) :=
  ⟨⟨by decide, by decide⟩,
    (c7_minute_adjust ⟨10, 30, 0⟩ LOW (by decide) (by decide)).1⟩

/-- C8: starting from the all-clear state, every operation of the sketch
that writes strikeRemaining keeps it between 0 and 12: the strike arming
of timeTask (for a nonnegative hour), the guarded shared decrement of
buzzerTask, and the stop-button clear of buttonTask. -/
theorem c8_strike_bounds (st : AlarmState) (hinv : strikeInv st)
    (m s hr : Int) (hhr : 0 ≤ hr) (mOk b : Bool) :
    strikeInv ⟨false, 0⟩
      ∧ strikeInv ((strikeCheck m s hr st mOk).1)
      ∧ strikeInv (strikeDecrement st b)
      ∧ strikeInv (stopPress st b) := by
  obtain ⟨hlo, hhi⟩ := hinv
  refine ⟨by decide, ?_, ?_, ?_⟩
  · unfold strikeCheck strikeInv
    split_ifs <;> simp only <;> omega
  · unfold strikeDecrement strikeInv
    cases b <;> simp only [Bool.false_eq_true, if_false, if_true]
    · exact ⟨hlo, hhi⟩
    · split_ifs <;> (try dsimp only) <;> omega
  · unfold stopPress strikeInv
    cases b <;> simp only [Bool.false_eq_true, if_false, if_true]
    · exact ⟨hlo, hhi⟩
    · omega

theorem c8_strike_bounds_witness :
    (strikeInv ⟨false, 5⟩ ∧ (0 : Int) ≤ 12)
      ∧ (strikeInv (⟨false, 0⟩ : AlarmState)
          ∧ strikeInv ((strikeCheck 0 0 12 ⟨false, 5⟩ true).1)
          ∧ strikeInv (strikeDecrement ⟨false, 5⟩ true)
          ∧ strikeInv (stopPress ⟨false, 5⟩ true)) :=
  ⟨⟨by decide, by decide⟩,
    c8_strike_bounds ⟨false, 5⟩ (by decide) 0 0 12 (by decide) true true⟩

/-- C9 counterexample: in the strike-arming path of timeTask, the re-read
of hourNow does not come after the release of dataMutex — the claim's
ordering (give dataMutex before read hour) does not occur in the source
event order. -/
theorem c9_counterexample :
    ¬ (strikeArmTrace.indexOf SyncEvent.giveDataMutex
        < strikeArmTrace.indexOf SyncEvent.readHour) := by
  decide

/-- C9 (amended): in the strike-arming path, the hour re-read under the
fast time lock happens while the AlarmState lock is still held — after
taking dataMutex and before giving it back — nested inside the time
critical section, not after the AlarmState lock has been released. -/
theorem c9_hour_reread_ordering :
    strikeArmTrace.indexOf SyncEvent.takeDataMutex
        < strikeArmTrace.indexOf SyncEvent.readHour
      ∧ strikeArmTrace.indexOf SyncEvent.readHour
        < strikeArmTrace.indexOf SyncEvent.giveDataMutex
      ∧ strikeArmTrace.indexOf SyncEvent.enterTimeCritical
        < strikeArmTrace.indexOf SyncEvent.readHour
      ∧ strikeArmTrace.indexOf SyncEvent.readHour
        < strikeArmTrace.indexOf SyncEvent.exitTimeCritical
      ∧ strikeArmTrace.indexOf SyncEvent.exitTimeCritical
        < strikeArmTrace.indexOf SyncEvent.writeStrikeRemaining := by
  decide

/-- C10 counterexample: with alarmRinging true and 5 strikes pending, a
wake whose first dataMutex read times out still enters the ringing loop
when the ringing-entry read succeeds, so the claim's conclusion of no
ringing playback is false. -/
theorem c10_counterexample :
    ¬ ((buzzerWakePass ⟨true, 5⟩ false (fun _ => true) true 8).2.1 = false) := by
  decide

/-- C10 (amended): if the wake-up read of buzzerTask times out, the task
proceeds with strikes = 0 (and doAlarm = false): the strike loop runs zero
iterations and the shared state is left unchanged, but ringing playback is
still entered whenever the subsequent ringing-entry read acquires the
mutex and finds alarmRinging true; only when that read also times out or
finds alarmRinging false does the task return to blocking with no
playback. -/
theorem c10_wake_timeout (st : AlarmState) (decOk : Nat → Bool)
    (ringOk : Bool) (fuel : Nat) :
    buzzerWakePass st false decOk ringOk fuel = (0, ringingRead st ringOk, st) := by
  cases fuel <;> rfl

-- smoke tests of the embedding on concrete inputs
example : tickTime ⟨5, 29, 59⟩ = ⟨5, 30, 0⟩ := by decide
example : tickTime ⟨23, 59, 59⟩ = ⟨0, 0, 0⟩ := by decide
example : strikeToneAction 49 = ToneAction.mute := by decide
example : strikeToneAction 50 = ToneAction.play 826 := by decide
example : strikeToneAction 4095 = ToneAction.play 3000 := by decide
example : (strikeCheck 0 0 13 ⟨false, 0⟩ true).1.strikeRemaining = 1 := by decide
example : (strikeCheck 0 0 12 ⟨false, 0⟩ true).1.strikeRemaining = 12 := by decide
example : (encoderISR HIGH LOW LOW ⟨23, 59, 17⟩).1 = ⟨0, 0, 0⟩ := by decide
example : (encoderISR HIGH HIGH LOW ⟨0, 0, 17⟩).1 = ⟨23, 59, 0⟩ := by decide
example : buzzerWakePass ⟨true, 5⟩ false (fun _ => true) true 8 = (0, true, ⟨true, 5⟩) := by decide
example : buzzerWakePass ⟨true, 3⟩ true (fun _ => true) true 8 = (3, true, ⟨true, 0⟩) := by decide
